import Mathlib

/-!
Shallow embedding of `src/pql/projection/matching.py` (the Axonius/pql
projection-mode compiler) and verification of the specification's claims
about it.

The module under `src/` extends a base module (`axonius.pql.matching`) that is
not part of `src/`.  Every definition below is translated directly from the
source file; the few places where behaviour of the missing base module is
needed are single definitions whose doc comment starts with
"Modelled from the spec:" and they name exactly what is missing.

Conventions of the embedding:
* Python `dict`/`list`/scalar values that the compiler produces become the
  inductive `Frag` (association lists keep Python's insertion order).
* `ParseError(message, col_offset, options)` becomes `PErr.parse`; an uncaught
  Python exception (IndexError / AttributeError / TypeError) becomes
  `PErr.pyExc kind msg` — those are *not* caught by `except ParseError`.
* The `**kwargs` threading of `compared_field` / `array_fields` /
  `complex_fields` becomes an `Option Ctx` argument: `none` models a call that
  passes *no* keyword arguments at all, `some c` models a call passing the
  three keywords with the values recorded in `c`.  (The distinction matters:
  passing keywords to a handler whose Python signature does not accept them
  raises `TypeError`.)
* Python's `None` set arguments and empty sets are both modelled as `[]`,
  which is sound because the source only uses them as
  `xs and field in xs` — falsy and empty behave identically.
-/

namespace PqlProj

/-- A backend condition fragment: the nested mapping / sequence / scalar value
the compiler produces (Python dicts are association lists in insertion order).
`fieldCompare` — Modelled from the spec: the output of the external
field-to-field comparison translator (`BaseParser.handle_field_comparison`,
§6 of the spec, not under `src/`); its shape is unspecified there, so it is
kept opaque as a tagged constructor holding the two resolved field paths. -/
inductive Frag where
  | str (s : String)
  | int (n : Int)
  | bool (b : Bool)
  | null
  | arr (elems : List Frag)
  | obj (pairs : List (String × Frag))
  | fieldCompare (left : String) (right : String)

/-- Failures.  `parse` is the base module's `ParseError(message, col_offset,
options)` exactly as the source raises and inspects it (`err.message`,
`col_offset=...`, `options=...`).  `pyExc` is an uncaught Python exception
(kind is the exception class name); it is distinct because
`except ParseError` in the source does not catch it. -/
inductive PErr where
  | parse (message : String) (colOffset : Option Nat) (options : Option (List String))
  | pyExc (kind : String) (message : String)

mutual
/-- The Python `ast` expression nodes consumed by the source file.  Every
constructor carries the node's `col_offset` as its last field.  `ast.Dict`
stores parallel `keys`/`values` lists which the source consumes only through
`zip(node.keys, node.values)`; the embedding stores the zipped pair list
directly.  `ast.BoolOp` is split into its two `op` cases (`ast.And` /
`ast.Or`), matching the source's `handle_And` / `handle_Or` dispatch.
Comparisons keep the full `comparators` list so that the source's
length check is representable. -/
inductive Expr where
  | str (s : String) (off : Nat)
  | num (n : Int) (off : Nat)
  | name (id : String) (off : Nat)
  | attribute (value : Expr) (attr : String) (off : Nat)
  | dict (pairs : ExprPairs) (off : Nat)
  | call (funcId : String) (args : ExprList) (off : Nat)
  | unaryNot (operand : Expr) (off : Nat)
  | boolAnd (values : ExprList) (off : Nat)
  | boolOr (values : ExprList) (off : Nat)
  | compare (left : Expr) (comparators : ExprList) (off : Nat)

/-- A list of expressions (kept as a mutual inductive so the translator can
be defined by structural recursion). -/
inductive ExprList where
  | nil
  | cons (head : Expr) (tail : ExprList)

/-- The zipped `keys`/`values` pair list of an `ast.Dict` node. -/
inductive ExprPairs where
  | nil
  | cons (key : Expr) (value : Expr) (rest : ExprPairs)
end

/-- `col_offset` of a node. -/
def Expr.off : Expr → Nat
  | .str _ o => o
  | .num _ o => o
  | .name _ o => o
  | .attribute _ _ o => o
  | .dict _ o => o
  | .call _ _ o => o
  | .unaryNot _ o => o
  | .boolAnd _ o => o
  | .boolOr _ o => o
  | .compare _ _ o => o

/-- The Python class name of a node (`type(thing).__name__`), used by the base
module's `resolve` to form `Unsupported syntax (<name>).` messages. -/
def Expr.tag : Expr → String
  | .str _ _ => "Str"
  | .num _ _ => "Num"
  | .name _ _ => "Name"
  | .attribute _ _ _ => "Attribute"
  | .dict _ _ => "Dict"
  | .call _ _ _ => "Call"
  | .unaryNot _ _ => "UnaryOp"
  | .boolAnd _ _ => "BoolOp"
  | .boolOr _ _ => "BoolOp"
  | .compare _ _ _ => "Compare"

/-- Number of elements of an `ExprList` (`len(compare.comparators)`). -/
def ExprList.length : ExprList → Nat
  | .nil => 0
  | .cons _ t => t.length + 1

/-- Indexing into an `ExprList` (`node.args[i]`). -/
def ExprList.get? : ExprList → Nat → Option Expr
  | .nil, _ => none
  | .cons h _, 0 => some h
  | .cons _ t, n + 1 => t.get? n

/-- The translation context carried by `**kwargs` through the source:
`compared_field`, `array_fields`, `complex_fields`. -/
structure Ctx where
  comparedField : Option String
  arrayFields : List String
  complexFields : List String

/-- `compared_field` as seen by a handler: the keyword if it was passed,
otherwise the Python default `None`. -/
def kwCf : Option Ctx → Option String
  | none => none
  | some c => c.comparedField

/-- `array_fields` as seen by a handler (`None` and the empty set are both
`[]`, see the module comment). -/
def kwArr : Option Ctx → List String
  | none => []
  | some c => c.arrayFields

/-- `complex_fields` as seen by a handler. -/
def kwCplx : Option Ctx → List String
  | none => []
  | some c => c.complexFields

/-- Python's `str.startswith(prefix)` as a character-level prefix test
(used by `handle_Compare`'s `err.message.startswith('Unsupported syntax')`,
source line 73). -/
def pyStartswith (pre s : String) : Bool :=
  pre.data.isPrefixOf s.data

/-- Python truthiness of an optional string: `None` and `''` are falsy
(`if not compared_field:` in `ProjectionStringField.handle_Str`). -/
def optFalsy : Option String → Bool
  | none => true
  | some s => s.isEmpty

/-- Rendering of an optional string inside an f-string: Python interpolates
`None` as the text `None` (`f'${compared_field}'` with `compared_field=None`
yields `'$None'`). -/
def pyOptStr : Option String → String
  | none => "None"
  | some s => s

/-- `field.split('.')[-1]` — the last dotted segment of a field path, i.e.
the characters after the last `'.'` (the whole string when there is no dot,
the empty string after a trailing dot — exactly Python's `split('.')[-1]`).
Implemented by a character fold that restarts at every dot. -/
def lastSeg (s : String) : String :=
  ⟨s.data.foldl (fun acc c => if c = '.' then [] else acc ++ [c]) []⟩

/-- The duplicated field-reference computation of
`ProjectionStringField.handle_Str` (lines 284-287),
`ProjectionIntField.handle_Num` (lines 293-296) and
`ProjectionStringFunc.handle_regexMatch` (lines 209-212):
`f'$${compared_field.split(".")[-1]}'` when `array_fields and
compared_field in array_fields`, else `f'${compared_field}'`. -/
def projFieldRef (cf : Option String) (arrayFields : List String) : String :=
  match cf with
  | some p => if p ∈ arrayFields then "$$" ++ lastSeg p else "$" ++ p
  | none => "$" ++ "None"

/-- Modelled from the spec: the base module's `BaseField.SPECIAL_VALUES`
(missing from `src/`; the source reads `self.SPECIAL_VALUES[node.id]` and
`options=list(self.SPECIAL_VALUES)`).  Per §3 of the spec the special name
literals are the Bool and Null literals; the claims name `True`, `False`
and `None`. -/
def SPECIAL_VALUES : List (String × Frag) :=
  [("True", .bool true), ("False", .bool false), ("None", .null)]

/-- The keys of `SPECIAL_VALUES`, in insertion order
(`list(self.SPECIAL_VALUES)`). -/
def specialNames : List String :=
  SPECIAL_VALUES.map Prod.fst

/-- `FieldName` (source lines 83-91): resolves a node to a dotted field path.
`handle_Str` → the string itself, `handle_Name` → the identifier,
`handle_Attribute` → `'{0}.{1}'.format(handle(attr.value), attr.attr)`.
Any other node has no `handle_` method, so the base `resolve` raises
`ParseError('Unsupported syntax (<tag>).')` (Modelled from the spec: the
base dispatch fails unmatched tags; the message text is fixed by the
source's own prefix test on line 73). -/
def FieldName.handle : Expr → Except PErr String
  | .str s _ => .ok s
  | .name id _ => .ok id
  | .attribute v a _ =>
    match FieldName.handle v with
    | .error e => .error e
    | .ok base => .ok (base ++ "." ++ a)
  | e => .error (.parse ("Unsupported syntax (" ++ e.tag ++ ").") (some e.off) none)

/-- `ProjectionField.handle_Name` (source lines 263-269): a name literal
compares the field against its special value using the *root-scoped*
reference `f'${compared_field}'` (no `array_fields` test); an unknown name
raises `ParseError('Invalid name: {0}', node.col_offset,
options=list(self.SPECIAL_VALUES))`. -/
def ProjectionField.handle_Name (id : String) (off : Nat) (cf : Option String) :
    Except PErr Frag :=
  match SPECIAL_VALUES.lookup id with
  | some v => .ok (.obj [("$eq", .arr [.str ("$" ++ pyOptStr cf), v])])
  | none => .error (.parse ("Invalid name: " ++ id) (some off) (some specialNames))

/-- `ProjectionStringField.handle_Str` (source lines 281-288): with a falsy
`compared_field` the raw string is returned; otherwise an `$eq` against the
array-aware field reference. -/
def ProjectionStringField.handle_Str (s : String) (kw : Option Ctx) :
    Except PErr Frag :=
  if optFalsy (kwCf kw) then .ok (.str s)
  else .ok (.obj [("$eq", .arr [.str (projFieldRef (kwCf kw) (kwArr kw)), .str s])])

/-- `ProjectionIntField.handle_Num` (source lines 292-297): always an `$eq`
against the array-aware field reference (no falsiness guard, unlike
`handle_Str`). -/
def ProjectionIntField.handle_Num (n : Int) (kw : Option Ctx) :
    Except PErr Frag :=
  .ok (.obj [("$eq", .arr [.str (projFieldRef (kwCf kw) (kwArr kw)), .int n])])

/-- Dispatch of `ProjectionStringField` (class at lines 279-288): its own
`handle_Str`, `handle_Name` inherited from `ProjectionField`; any other node
has no handler, so the base `resolve` raises `Unsupported syntax (<tag>).`
(the base `StringBaseField` is modelled as contributing no further node
handlers, consistent with the module docstring: the projection classes are
the base classes plus `**kwargs`). -/
def ProjectionStringField.handle (e : Expr) (kw : Option Ctx) :
    Except PErr Frag :=
  match e with
  | .str s _ => ProjectionStringField.handle_Str s kw
  | .name id off => ProjectionField.handle_Name id off (kwCf kw)
  | e => .error (.parse ("Unsupported syntax (" ++ e.tag ++ ").") (some e.off) none)

/-- Dispatch of `ProjectionBoolField` (line 300): only the inherited
`ProjectionField.handle_Name`; other nodes fail the base `resolve`. -/
def ProjectionBoolField.handle (e : Expr) (kw : Option Ctx) :
    Except PErr Frag :=
  match e with
  | .name id off => ProjectionField.handle_Name id off (kwCf kw)
  | e => .error (.parse ("Unsupported syntax (" ++ e.tag ++ ").") (some e.off) none)

/-- Modelled from the spec: `BaseFunc.get_arg` (missing from `src/`).  Per
§4.5 a missing optional argument must surface as a `ParseError` — the source
relies on exactly that in the `try/except ParseError` around the optional
`options` argument of `regexMatch` (lines 231-234). -/
def getArg (args : ExprList) (i : Nat) (off : Nat) : Except PErr Expr :=
  match args.get? i with
  | some a => .ok a
  | none => .error (.parse "Missing argument." (some off) none)

/-- `ProjectionStringFunc.handle_regexMatch` (source lines 208-235).
The two `parse_arg` calls pass **no** keyword arguments, so the argument
handlers run under an empty context; the optional second argument is added
under `'options'` unless fetching/translating it raises `ParseError`
(anything else would propagate, but the string field handler only raises
`ParseError`). -/
def ProjectionStringFunc.handle_regexMatch (args : ExprList) (off : Nat)
    (kw : Option Ctx) : Except PErr Frag :=
  let field := projFieldRef (kwCf kw) (kwArr kw)
  match getArg args 0 off with
  | .error e => .error e
  | .ok a0 =>
    match ProjectionStringField.handle a0 none with
    | .error e => .error e
    | .ok pat =>
      let base :=
        [("$eq", Frag.arr [.str "string", .obj [("$type", .str field)]])]
      let mk := fun (rm : List (String × Frag)) =>
        Except.ok (ε := PErr)
          (Frag.obj [("$and", .arr [.obj base, .obj [("$regexMatch", .obj rm)]])])
      match getArg args 1 off with
      | .error (.parse _ _ _) => mk [("input", .str field), ("regex", pat)]
      | .error e => .error e
      | .ok a1 =>
        match ProjectionStringField.handle a1 none with
        | .error (.parse _ _ _) => mk [("input", .str field), ("regex", pat)]
        | .error e => .error e
        | .ok o => mk [("input", .str field), ("regex", pat), ("options", o)]

/-- `ProjectionGenericFunc.handle` = `ProjectionFunc.handle` (source lines
191-198) with the handlers reachable on `ProjectionGenericFunc`
(`handle_exists` from `ProjectionFunc`, `handle_regexMatch` from
`ProjectionStringFunc`; the base `IntFunc`/`ListFunc`/`DateTimeFunc` mixins
are modelled as contributing no claim-relevant handlers, and
`BaseFunc.get_options` as `None`).

Python call semantics make the `exists` case fail whenever keyword arguments
are passed: `handler(node, **kwargs)` with
`def handle_exists(self, node):` (lines 200-203 — no `**kwargs` in its
signature, unlike `handle_regexMatch`) raises
`TypeError: handle_exists() got an unexpected keyword argument ...`.
With no keywords passed (`kw = none`, e.g. from a dict-value translation)
`handle_exists` runs and wraps the Bool field handler's result in
`{'$exists': ...}`. -/
def ProjectionGenericFunc.handle (f : String) (args : ExprList) (off : Nat)
    (kw : Option Ctx) : Except PErr Frag :=
  if f = "exists" then
    match kw with
    | some _ =>
      .error (.pyExc "TypeError"
        "handle_exists() got an unexpected keyword argument 'compared_field'")
    | none =>
      match getArg args 0 off with
      | .error e => .error e
      | .ok a0 =>
        match ProjectionBoolField.handle a0 none with
        | .error e => .error e
        | .ok v => .ok (.obj [("$exists", v)])
  else if f = "regexMatch" then ProjectionStringFunc.handle_regexMatch args off kw
  else .error (.parse ("Unsupported function (" ++ f ++ ").") (some off) none)

mutual
/-- Dispatch of `ProjectionGenericField` (source lines 317-320), the resolver
used for every field in schema-free mode.  Its method resolution order
provides: `handle_Num` (`ProjectionIntField`), `handle_Name`
(`ProjectionField`), `handle_Str` (`ProjectionStringField`), `handle_Dict`
(`ProjectionDictField`) and its own `handle_Call`; any other node fails the
base `resolve` with `Unsupported syntax (<tag>).` (list literals are outside
the embedding's scope — no claim mentions them). -/
def ProjectionGenericField.handle (e : Expr) (kw : Option Ctx) :
    Except PErr Frag :=
  match e with
  | .str s _ => ProjectionStringField.handle_Str s kw
  | .num n _ => ProjectionIntField.handle_Num n kw
  | .name id off => ProjectionField.handle_Name id off (kwCf kw)
  | .dict pairs _ =>
    match ProjectionDictField.handle_Dict_pairs pairs with
    | .error e => .error e
    | .ok fs => .ok (.obj [("$and", .arr fs)])
  | .call f args off => ProjectionGenericFunc.handle f args off kw
  | e => .error (.parse ("Unsupported syntax (" ++ e.tag ++ ").") (some e.off) none)

/-- The comprehension of `ProjectionDictField.handle_Dict` (source lines
310-314): for each zipped `(key, value)` pair build
`{ProjectionStringField().handle(key): ProjectionGenericField().handle(value)}`.
Both calls pass **no** keyword arguments (the incoming `**kwargs` is
dropped), so key and value are translated under the empty context.
`self._field` is `None` for a bare `ProjectionGenericField()` instance
(Modelled from the spec: the base `DictBaseField` constructor defaults its
declared value-field to none), so the value handler is
`ProjectionGenericField()`.  A key whose translation is not a string would be
an unhashable dict key in Python (`TypeError`). -/
def ProjectionDictField.handle_Dict_pairs (pairs : ExprPairs) :
    Except PErr (List Frag) :=
  match pairs with
  | .nil => .ok []
  | .cons k v rest =>
    match ProjectionStringField.handle k none with
    | .error e => .error e
    | .ok (.str ks) =>
      match ProjectionGenericField.handle v none with
      | .error e => .error e
      | .ok vf =>
        match ProjectionDictField.handle_Dict_pairs rest with
        | .error e => .error e
        | .ok fs => .ok (.obj [(ks, vf)] :: fs)
    | .ok _ => .error (.pyExc "TypeError" "unhashable type")
end

/-- `ProjectionMap.handle` (source lines 103-145), the schema-free variant
(`ProjectionSchemaFreeOperatorMap.resolve_type` returns
`ProjectionGenericField()`, lines 156-161).  The left operand resolves to a
field path via `FieldName`; the right operand is translated by the field
handler under `compared_field=field` plus the incoming
`array_fields`/`complex_fields` (the supported comparator is `Eq`, routed
through `ProjectionOperator.handle_Eq`, lines 247-250, which forwards the
three keywords unchanged).  When the field is in *both* `complex_fields` and
`array_fields` the condition is wrapped in the `$isArray`/`$anyElementTrue`
quantifier template; otherwise it is returned unchanged. -/
def ProjectionMap.handle (left right : Expr) (arrayFields complexFields : List String) :
    Except PErr Frag :=
  match FieldName.handle left with
  | .error e => .error e
  | .ok field =>
    match ProjectionGenericField.handle right
        (some ⟨some field, arrayFields, complexFields⟩) with
    | .error e => .error e
    | .ok condition =>
      if field ∈ complexFields ∧ field ∈ arrayFields then
        .ok (.obj [("$and", .arr
          [ .obj [("$isArray", .str ("$" ++ field))],
            .obj [("$anyElementTrue", .obj [("$map", .obj
              [ ("input", .obj [("$cond", .obj
                  [ ("if", .obj [("$isArray", .str ("$" ++ field))]),
                    ("then", .str ("$" ++ field)),
                    ("else", .arr []) ])]),
                ("as", .str (lastSeg field)),
                ("in", .obj [("$cond", .obj
                  [ ("if", condition),
                    ("then", .bool true),
                    ("else", .bool false) ])]) ])])] ])])
      else .ok condition

/-- Modelled from the spec: `BaseParser.handle_field_comparison` (missing
from `src/`), the external field-to-field comparison translator of §6 —
`(left_field, operator, right_field) -> Fragment`.  Both sides are resolved
to field paths; the fragment itself is unspecified by the spec and kept
opaque as `Frag.fieldCompare`. -/
def handle_field_comparison (left right : Expr) : Except PErr Frag :=
  match FieldName.handle left with
  | .error e => .error e
  | .ok lf =>
    match FieldName.handle right with
    | .error e => .error e
    | .ok rf => .ok (.fieldCompare lf rf)

mutual
/-- `ProjectionParser.handle` dispatch (source lines 21-76) for the
schema-free projection parser (`ProjectionSchemaFreeParser`, lines 78-80):

* `handle_Call` (lines 35-38): only `search` is allowed
  (`ParseError(f'Unsupported method call {id}')` otherwise, no offset/options);
  then `op.args[0].s` is read directly — an empty argument list raises
  `IndexError`, a non-string first argument has no `.s` and raises
  `AttributeError` (both uncaught Python exceptions, not `ParseError`s).
* `handle_BoolOp` (lines 40-52): `{'$and' | '$or': [handle(v) ...]}`.
* `handle_UnaryOp` (lines 54-61): translate the operand, take
  `list(operator.items())[0]` — the *first* key/value pair of the resulting
  dict (empty dict → `IndexError`; non-dict → `AttributeError`) — and wrap it
  as `{'$not': {field: value}}` (`handle_Not` → `'$not'`, modelled from the
  spec for the missing base parser).
* `handle_Compare` (lines 63-75): reject a comparator count other than one
  with `ParseError('Invalid number of comparators: {n}',
  col_offset=comparators[1].col_offset)`; otherwise run the operator map and,
  if it raises a `ParseError` whose `.message` starts with the *text*
  `'Unsupported syntax'`, fall back to `handle_field_comparison`; every other
  `ParseError` (and any non-`ParseError`) propagates.
* any other node type fails the base `resolve` with
  `Unsupported syntax (<tag>).`. -/
def ProjectionParser.handle (e : Expr) (arrayFields complexFields : List String) :
    Except PErr Frag :=
  match e with
  | .call f args _ =>
    if f ≠ "search" then
      .error (.parse ("Unsupported method call " ++ f) none none)
    else
      match args with
      | .nil => .error (.pyExc "IndexError" "list index out of range")
      | .cons a0 _ =>
        match a0 with
        | .str s _ =>
          .ok (.obj [("$text", .obj
            [ ("$search", .str ("\"" ++ s ++ "\"")),
              ("$caseSensitive", .bool false) ])])
        | _ => .error (.pyExc "AttributeError" "object has no attribute 's'")
  | .boolAnd vs _ =>
    match ProjectionParser.handleValues vs arrayFields complexFields with
    | .error e => .error e
    | .ok fs => .ok (.obj [("$and", .arr fs)])
  | .boolOr vs _ =>
    match ProjectionParser.handleValues vs arrayFields complexFields with
    | .error e => .error e
    | .ok fs => .ok (.obj [("$or", .arr fs)])
  | .unaryNot operand _ =>
    match ProjectionParser.handle operand arrayFields complexFields with
    | .error e => .error e
    | .ok (.obj []) => .error (.pyExc "IndexError" "list index out of range")
    | .ok (.obj ((k, v) :: _)) => .ok (.obj [("$not", .obj [(k, v)])])
    | .ok _ => .error (.pyExc "AttributeError" "object has no attribute 'items'")
  | .compare left comparators _ =>
    match comparators with
    | .cons right .nil =>
      match ProjectionMap.handle left right arrayFields complexFields with
      | .ok frag => .ok frag
      | .error (.parse msg o opts) =>
        if pyStartswith "Unsupported syntax" msg then
          handle_field_comparison left right
        else .error (.parse msg o opts)
      | .error e => .error e
    | .nil => .error (.pyExc "IndexError" "list index out of range")
    | .cons _ (.cons c2 _) =>
      .error (.parse
        ("Invalid number of comparators: " ++ toString comparators.length)
        (some c2.off) none)
  | e => .error (.parse ("Unsupported syntax (" ++ e.tag ++ ").") (some e.off) none)

/-- `list(map(handle_op, op.values))` of `handle_BoolOp`: left-to-right
translation of the operand list; the first failure aborts. -/
def ProjectionParser.handleValues (vs : ExprList)
    (arrayFields complexFields : List String) : Except PErr (List Frag) :=
  match vs with
  | .nil => .ok []
  | .cons v rest =>
    match ProjectionParser.handle v arrayFields complexFields with
    | .error e => .error e
    | .ok f =>
      match ProjectionParser.handleValues rest arrayFields complexFields with
      | .error e => .error e
      | .ok fs => .ok (f :: fs)
end

/-- The exposed schema-free projection entry point (§6:
`compile_projection(source_text, array_fields, complex_fields)`); the
lexical parser (`ast.parse`) is an external collaborator, so the embedding
starts from the expression tree. -/
def compile_projection (e : Expr) (arrayFields complexFields : List String) :
    Except PErr Frag :=
  ProjectionParser.handle e arrayFields complexFields

/-- `SchemaAwareOperatorMap.resolve_field` (source lines 164-176): resolve
the node to a field path via `FieldName`, then probe the injected
`field_to_type` mapping; a missing key raises
`ParseError('Field not found: {0}.', col_offset=node.col_offset,
options=self._field_to_type.keys())`.  The dict is an association list with
distinct keys; `.keys()` is the key list in insertion order. -/
def SchemaAwareOperatorMap.resolve_field {α : Type} (fieldToType : List (String × α))
    (node : Expr) : Except PErr String :=
  match FieldName.handle node with
  | .error e => .error e
  | .ok field =>
    match fieldToType.lookup field with
    | some _ => .ok field
    | none =>
      .error (.parse ("Field not found: " ++ field ++ ".") (some node.off)
        (some (fieldToType.map Prod.fst)))

/-- `SchemaAwareOperatorMap.resolve_type` (source lines 178-179):
`self._field_to_type[field]` — the declared Field-Type handler for the field
(the source only calls it after `resolve_field` validated the key, hence the
`Option`). -/
def SchemaAwareOperatorMap.resolve_type {α : Type} (fieldToType : List (String × α))
    (field : String) : Option α :=
  fieldToType.lookup field

/-- Modelled from the spec: the §4.2 reference-form rule, written from the
spec's words — `"$$" + last_segment(P)` if `P ∈ array_fields` else
`"$" + P` — used only to compare the code's rendered references against the
rule (claim C2). -/
def specRefForm (P : String) (arrayFields : List String) : String :=
  if P ∈ arrayFields then "$$" ++ lastSeg P else "$" ++ P

/-- **C1** (confirmed): for a comparison whose left operand resolves to field
path `P` and whose right operand translates to the condition `c`, the
compiled fragment is exactly the `$isArray`/`$anyElementTrue` quantifier
template around `c` when `P` is in both `array_fields` and `complex_fields`,
and is `c` unchanged otherwise. -/
theorem c1_quantifier_elevation
    (left right : Expr) (arrF cplxF : List String) (off : Nat) (P : String) (c : Frag)
    (hL : FieldName.handle left = .ok P)
    (hR : ProjectionGenericField.handle right (some ⟨some P, arrF, cplxF⟩) = .ok c) :
    (P ∈ arrF ∧ P ∈ cplxF →
      compile_projection (.compare left (.cons right .nil) off) arrF cplxF
        = .ok (.obj [("$and", .arr
            [ .obj [("$isArray", .str ("$" ++ P))],
              .obj [("$anyElementTrue", .obj [("$map", .obj
                [ ("input", .obj [("$cond", .obj
                    [ ("if", .obj [("$isArray", .str ("$" ++ P))]),
                      ("then", .str ("$" ++ P)),
                      ("else", .arr []) ])]),
                  ("as", .str (lastSeg P)),
                  ("in", .obj [("$cond", .obj
                    [ ("if", c),
                      ("then", .bool true),
                      ("else", .bool false) ])]) ])])] ])]))
    ∧ (¬(P ∈ arrF ∧ P ∈ cplxF) →
      compile_projection (.compare left (.cons right .nil) off) arrF cplxF = .ok c) := by
  constructor
  · intro h
    simp [compile_projection, ProjectionParser.handle, ProjectionMap.handle,
      hL, hR, h.1, h.2]
  · intro h
    have h' : ¬(P ∈ cplxF ∧ P ∈ arrF) := fun hc => h ⟨hc.2, hc.1⟩
    simp [compile_projection, ProjectionParser.handle, ProjectionMap.handle,
      hL, hR, h']

/-- Witness for C1 at `a.b == "x"` with `a.b` in both sets (and, for the
second conjunct, with `a.b` in neither). -/
theorem c1_quantifier_elevation_witness :
    compile_projection
        (.compare (.attribute (.name "a" 0) "b" 0) (.cons (.str "x" 7) .nil) 0)
        ["a.b"] ["a.b"]
      = .ok (.obj [("$and", .arr
          [ .obj [("$isArray", .str ("$" ++ "a.b"))],
            .obj [("$anyElementTrue", .obj [("$map", .obj
              [ ("input", .obj [("$cond", .obj
                  [ ("if", .obj [("$isArray", .str ("$" ++ "a.b"))]),
                    ("then", .str ("$" ++ "a.b")),
                    ("else", .arr []) ])]),
                ("as", .str (lastSeg "a.b")),
                ("in", .obj [("$cond", .obj
                  [ ("if", .obj [("$eq", .arr [.str "$$b", .str "x"])]),
                    ("then", .bool true),
                    ("else", .bool false) ])]) ])])] ])])
    ∧ compile_projection
        (.compare (.attribute (.name "a" 0) "b" 0) (.cons (.str "x" 7) .nil) 0)
        [] []
      = .ok (.obj [("$eq", .arr [.str "$a.b", .str "x"])]) :=
  ⟨(c1_quantifier_elevation (.attribute (.name "a" 0) "b" 0) (.str "x" 7)
      ["a.b"] ["a.b"] 0 "a.b" (.obj [("$eq", .arr [.str "$$b", .str "x"])])
      (by simp [FieldName.handle])
      (by simp +decide [ProjectionGenericField.handle,
        ProjectionStringField.handle_Str, optFalsy, kwCf, kwArr, projFieldRef,
        lastSeg])).1
    (by simp),
   (c1_quantifier_elevation (.attribute (.name "a" 0) "b" 0) (.str "x" 7)
      [] [] 0 "a.b" (.obj [("$eq", .arr [.str "$a.b", .str "x"])])
      (by simp [FieldName.handle])
      (by simp +decide [ProjectionGenericField.handle,
        ProjectionStringField.handle_Str, optFalsy, kwCf, kwArr,
        projFieldRef])).2
    (by simp)⟩

/-- **C2** counterexample: the reference-form rule does *not* hold at the
name-literal leaf site.  With compared field `a.b ∈ array_fields`, the
special-value name literal `True` renders the root-scoped reference
`"$a.b"`, not the alias-scoped `"$$" + last_segment("a.b") = "$$b"` the
claim requires at every leaf site. -/
theorem c2_counterexample :
    ProjectionGenericField.handle (.name "True" 7) (some ⟨some "a.b", ["a.b"], []⟩)
      = .ok (.obj [("$eq", .arr [.str "$a.b", .bool true])])
    ∧ ProjectionGenericField.handle (.name "True" 7) (some ⟨some "a.b", ["a.b"], []⟩)
      ≠ .ok (.obj [("$eq", .arr [.str (specRefForm "a.b" ["a.b"]), .bool true])]) := by
  constructor
  · simp +decide [ProjectionGenericField.handle, ProjectionField.handle_Name,
      SPECIAL_VALUES, kwCf, pyOptStr, List.lookup]
  · simp +decide [ProjectionGenericField.handle, ProjectionField.handle_Name,
      SPECIAL_VALUES, kwCf, pyOptStr, List.lookup, specRefForm, lastSeg]

/-- **C2** amended (proved): the reference-form rule holds at the
string-literal, number-literal and `regexMatch`-argument leaf sites — each
renders `"$$" + last_segment(P)` when `P ∈ array_fields` and `"$" + P`
otherwise — but the name-literal site always renders the root-scoped
`"$" + P`, regardless of `array_fields`. -/
theorem c2_reference_forms
    (P : String) (arrF cplxF : List String) (s pat : String) (n : Int) (off : Nat)
    (hP : P ≠ "") :
    (ProjectionGenericField.handle (.str s off) (some ⟨some P, arrF, cplxF⟩)
      = .ok (.obj [("$eq", .arr [.str (specRefForm P arrF), .str s])]))
    ∧ (ProjectionGenericField.handle (.num n off) (some ⟨some P, arrF, cplxF⟩)
      = .ok (.obj [("$eq", .arr [.str (specRefForm P arrF), .int n])]))
    ∧ (ProjectionGenericFunc.handle "regexMatch" (.cons (.str pat off) .nil) off
        (some ⟨some P, arrF, cplxF⟩)
      = .ok (.obj [("$and", .arr
          [ .obj [("$eq", .arr [.str "string", .obj [("$type", .str (specRefForm P arrF))]])],
            .obj [("$regexMatch", .obj
              [("input", .str (specRefForm P arrF)), ("regex", .str pat)])] ])]))
    ∧ (∀ id v, SPECIAL_VALUES.lookup id = some v →
        ProjectionGenericField.handle (.name id off) (some ⟨some P, arrF, cplxF⟩)
          = .ok (.obj [("$eq", .arr [.str ("$" ++ P), v])])) := by
  have hRef : projFieldRef (some P) arrF = specRefForm P arrF := by
    by_cases h : P ∈ arrF <;> simp [projFieldRef, specRefForm, h]
  have hFalsy : optFalsy (some P) = false := by
    simp only [optFalsy, Bool.eq_false_iff, Ne, String.isEmpty_iff]
    exact hP
  refine ⟨?_, ?_, ?_, ?_⟩
  · simp [ProjectionGenericField.handle, ProjectionStringField.handle_Str,
      kwCf, kwArr, hFalsy, hRef]
  · simp [ProjectionGenericField.handle, ProjectionIntField.handle_Num,
      kwCf, kwArr, hRef]
  · simp [ProjectionGenericFunc.handle, ProjectionStringFunc.handle_regexMatch,
      kwCf, kwArr, hRef, getArg, ExprList.get?, ProjectionStringField.handle,
      ProjectionStringField.handle_Str, optFalsy]
  · intro id v hv
    simp [ProjectionGenericField.handle, ProjectionField.handle_Name,
      kwCf, pyOptStr, hv]

/-- Witness for C2's amended theorem at `P = "a.b" ∈ array_fields`. -/
theorem c2_reference_forms_witness :
    ProjectionGenericField.handle (.str "x" 3) (some ⟨some "a.b", ["a.b"], []⟩)
      = .ok (.obj [("$eq", .arr [.str (specRefForm "a.b" ["a.b"]), .str "x"])])
    ∧ ProjectionGenericField.handle (.name "True" 3) (some ⟨some "a.b", ["a.b"], []⟩)
      = .ok (.obj [("$eq", .arr [.str ("$" ++ "a.b"), .bool true])]) :=
  ⟨(c2_reference_forms "a.b" ["a.b"] [] "x" "p" 0 3 (by simp)).1,
   (c2_reference_forms "a.b" ["a.b"] [] "x" "p" 0 3 (by simp)).2.2.2 "True"
     (.bool true) (by simp [SPECIAL_VALUES, List.lookup])⟩

/-- **C3** counterexample: the Compare fallback is *not* governed by a
distinct error kind for "right-hand side is a field reference".  For
`F == x` — whose right-hand side *is* a field reference — the operator map
fails with `ParseError('Invalid name: x')`; because the branch tests the
message *text* for the prefix `'Unsupported syntax'`, no fallback to the
field-to-field translator happens and the error propagates, contradicting
the claim that the fallback is taken exactly on field-reference right-hand
sides. -/
theorem c3_counterexample :
    compile_projection (.compare (.name "F" 0) (.cons (.name "x" 5) .nil) 0) [] []
      = .error (.parse "Invalid name: x" (some 5) (some ["True", "False", "None"]))
    ∧ compile_projection (.compare (.name "F" 0) (.cons (.name "x" 5) .nil) 0) [] []
      ≠ .ok (.fieldCompare "F" "x") := by
  constructor
  · simp +decide [compile_projection, ProjectionParser.handle, ProjectionMap.handle,
      FieldName.handle, ProjectionGenericField.handle, ProjectionField.handle_Name,
      SPECIAL_VALUES, specialNames, kwCf, List.lookup, pyStartswith,
      List.isPrefixOf, String.data, String.append]
  · simp +decide [compile_projection, ProjectionParser.handle, ProjectionMap.handle,
      FieldName.handle, ProjectionGenericField.handle, ProjectionField.handle_Name,
      SPECIAL_VALUES, specialNames, kwCf, List.lookup, pyStartswith,
      List.isPrefixOf, String.data, String.append]

/-- **C3** amended (proved): `handle_Compare`'s fallback is decided by a
*text-prefix match* on the `ParseError` message — it is taken exactly when
the message starts with `'Unsupported syntax'` (e.g. an attribute-reference
right-hand side, which the field handler cannot resolve), and every
`ParseError` without that prefix — including the `'Invalid name'` error
raised for a bare-name right-hand side, which *is* a field reference —
propagates unchanged. -/
theorem c3_fallback_on_message_prefix
    (P base attr id : String) (arrF cplxF : List String) (o1 o2 o3 o4 : Nat)
    (hid : SPECIAL_VALUES.lookup id = none) :
    (compile_projection
        (.compare (.name P o1) (.cons (.attribute (.name base o2) attr o2) .nil) o3)
        arrF cplxF
      = .ok (.fieldCompare P (base ++ "." ++ attr)))
    ∧ (compile_projection
        (.compare (.name P o1) (.cons (.name id o4) .nil) o3) arrF cplxF
      = .error (.parse ("Invalid name: " ++ id) (some o4) (some specialNames))) := by
  constructor
  · simp +decide [compile_projection, ProjectionParser.handle, ProjectionMap.handle,
      FieldName.handle, ProjectionGenericField.handle, handle_field_comparison,
      Expr.tag, Expr.off, pyStartswith, List.isPrefixOf, String.data, String.append]
  · simp [compile_projection, ProjectionParser.handle, ProjectionMap.handle,
      FieldName.handle, ProjectionGenericField.handle, ProjectionField.handle_Name,
      kwCf, hid, pyStartswith, List.isPrefixOf, String.data, String.append]

/-- Witness for C3's amended theorem: `F == a.b` falls back to the field
comparison; `F == x` propagates `Invalid name: x`. -/
theorem c3_fallback_on_message_prefix_witness :
    (compile_projection
        (.compare (.name "F" 0) (.cons (.attribute (.name "a" 5) "b" 5) .nil) 0) [] []
      = .ok (.fieldCompare "F" ("a" ++ "." ++ "b")))
    ∧ (compile_projection
        (.compare (.name "F" 0) (.cons (.name "x" 5) .nil) 0) [] []
      = .error (.parse ("Invalid name: " ++ "x") (some 5) (some specialNames))) :=
  c3_fallback_on_message_prefix "F" "a" "b" "x" [] [] 0 5 0 5
    (by simp [SPECIAL_VALUES, List.lookup])

/-- **C4** counterexample: `NOT (A AND B)` does *not* fail with
`UnsupportedConstruct` — `handle_UnaryOp` takes the first (and only)
top-level pair of the operand fragment, here `('$and', [...])`, and wraps
it, producing `{'$not': {'$and': [A', B']}}`. -/
theorem c4_counterexample :
    compile_projection
        (.unaryNot (.boolAnd
          (.cons (.compare (.name "a" 4) (.cons (.num 1 9) .nil) 4)
            (.cons (.compare (.name "b" 14) (.cons (.num 2 19) .nil) 14) .nil)) 4) 0)
        [] []
      = .ok (.obj [("$not", .obj [("$and", .arr
          [ .obj [("$eq", .arr [.str "$a", .int 1])],
            .obj [("$eq", .arr [.str "$b", .int 2])] ])])]) := by
  simp +decide [compile_projection, ProjectionParser.handle,
    ProjectionParser.handleValues, ProjectionMap.handle, FieldName.handle,
    ProjectionGenericField.handle, ProjectionIntField.handle_Num,
    kwCf, kwArr, projFieldRef]

/-- **C4** amended (proved): `NOT` wraps the *first* top-level key/value pair
of whatever fragment its operand translates to as `{'$not': {key: value}}`;
a composite or quantified operand is not rejected — its single top-level
pair (`'$and'`, `'$or'`, …) is wrapped the same way. -/
theorem c4_not_wraps_first_pair
    (operand : Expr) (arrF cplxF : List String) (off : Nat)
    (k : String) (v : Frag) (rest : List (String × Frag))
    (h : ProjectionParser.handle operand arrF cplxF = .ok (.obj ((k, v) :: rest))) :
    compile_projection (.unaryNot operand off) arrF cplxF
      = .ok (.obj [("$not", .obj [(k, v)])]) := by
  simp [compile_projection, ProjectionParser.handle, h]

/-- Witness for C4's amended theorem at `NOT (F == 3)`. -/
theorem c4_not_wraps_first_pair_witness :
    compile_projection
        (.unaryNot (.compare (.name "F" 4) (.cons (.num 3 9) .nil) 4) 0) [] []
      = .ok (.obj [("$not", .obj [("$eq", .arr [.str "$F", .int 3])])]) :=
  c4_not_wraps_first_pair (.compare (.name "F" 4) (.cons (.num 3 9) .nil) 4)
    [] [] 0 "$eq" (.arr [.str "$F", .int 3]) []
    (by simp +decide [ProjectionParser.handle, ProjectionMap.handle,
      FieldName.handle, ProjectionGenericField.handle,
      ProjectionIntField.handle_Num, kwCf, kwArr, projFieldRef])

/-- **C5**: `search("needle")` produces exactly the claimed `$text` fragment,
but the other call shapes do *not* fail with an `UnsupportedConstruct`
`ParseError`: `search()` reads `op.args[0]` and crashes with an uncaught
`IndexError`, and a non-string argument has no `.s` attribute and crashes
with an uncaught `AttributeError` (source line 38). -/
theorem c5_search_shapes :
    compile_projection (.call "search" (.cons (.str "needle" 7) .nil) 0) [] []
      = .ok (.obj [("$text", .obj
          [ ("$search", .str "\"needle\""), ("$caseSensitive", .bool false) ])])
    ∧ compile_projection (.call "search" .nil 0) [] []
      = .error (.pyExc "IndexError" "list index out of range")
    ∧ compile_projection (.call "search" (.cons (.num 5 7) .nil) 0) [] []
      = .error (.pyExc "AttributeError" "object has no attribute 's'") := by
  refine ⟨?_, ?_, ?_⟩ <;> simp +decide [compile_projection, ProjectionParser.handle]

/-- **C6** counterexample: `F == exists(True)` in projection mode does not
produce `{"F": {"$exists": true}}` — it does not produce a fragment at all.
`ProjectionFunc.handle` calls `handler(node, **kwargs)` with the three
context keywords, and `handle_exists` (source line 200) accepts none of
them, so Python raises `TypeError`. -/
theorem c6_counterexample :
    compile_projection
        (.compare (.name "F" 0)
          (.cons (.call "exists" (.cons (.name "True" 12) .nil) 5) .nil) 0) [] []
      = .error (.pyExc "TypeError"
          "handle_exists() got an unexpected keyword argument 'compared_field'")
    ∧ compile_projection
        (.compare (.name "F" 0)
          (.cons (.call "exists" (.cons (.name "True" 12) .nil) 5) .nil) 0) [] []
      ≠ .ok (.obj [("F", .obj [("$exists", .bool true)])]) := by
  constructor
  · simp +decide [compile_projection, ProjectionParser.handle, ProjectionMap.handle,
      FieldName.handle, ProjectionGenericField.handle, ProjectionGenericFunc.handle,
      pyStartswith, List.isPrefixOf, String.data]
  · simp +decide [compile_projection, ProjectionParser.handle, ProjectionMap.handle,
      FieldName.handle, ProjectionGenericField.handle, ProjectionGenericFunc.handle,
      pyStartswith, List.isPrefixOf, String.data]

/-- **C6** amended (proved): translating `exists(...)` as the right-hand side
of a comparison in projection mode always fails with an uncaught `TypeError`,
because `ProjectionFunc.handle` forwards the context keywords
(`compared_field`/`array_fields`/`complex_fields`) to `handle_exists`, whose
signature does not accept them.  The `{'$exists': <bool>}` fragment keyed
under the compared field exists only in the base (non-projection) operator
map, which the projection pipeline does not use. -/
theorem c6_exists_typeerror
    (P : String) (arrF cplxF : List String) (args : ExprList) (o1 o2 o3 : Nat) :
    compile_projection
        (.compare (.name P o1) (.cons (.call "exists" args o2) .nil) o3) arrF cplxF
      = .error (.pyExc "TypeError"
          "handle_exists() got an unexpected keyword argument 'compared_field'") := by
  simp +decide [compile_projection, ProjectionParser.handle, ProjectionMap.handle,
    FieldName.handle, ProjectionGenericField.handle, ProjectionGenericFunc.handle,
    pyStartswith, List.isPrefixOf, String.data]

/-- **C7** (confirmed): `F == regexMatch(pattern)` on a non-array compared
field produces the two-clause `$and` — string-type guard plus `$regexMatch`
with `input`/`regex` and no `options` key — using the root-scoped reference
`"$" + F`; a second string argument adds the `options` key with that value. -/
theorem c7_regexmatch
    (P pat opts : String) (arrF cplxF : List String) (o1 o2 o3 o4 o5 : Nat)
    (hP : P ∉ arrF) :
    (compile_projection
        (.compare (.name P o1)
          (.cons (.call "regexMatch" (.cons (.str pat o2) .nil) o3) .nil) o4)
        arrF cplxF
      = .ok (.obj [("$and", .arr
          [ .obj [("$eq", .arr [.str "string", .obj [("$type", .str ("$" ++ P))]])],
            .obj [("$regexMatch", .obj
              [("input", .str ("$" ++ P)), ("regex", .str pat)])] ])]))
    ∧ (compile_projection
        (.compare (.name P o1)
          (.cons (.call "regexMatch"
            (.cons (.str pat o2) (.cons (.str opts o5) .nil)) o3) .nil) o4)
        arrF cplxF
      = .ok (.obj [("$and", .arr
          [ .obj [("$eq", .arr [.str "string", .obj [("$type", .str ("$" ++ P))]])],
            .obj [("$regexMatch", .obj
              [("input", .str ("$" ++ P)), ("regex", .str pat),
               ("options", .str opts)])] ])])) := by
  have hRef : projFieldRef (some P) arrF = "$" ++ P := by
    simp [projFieldRef, hP]
  constructor
  · simp [compile_projection, ProjectionParser.handle, ProjectionMap.handle,
      FieldName.handle, ProjectionGenericField.handle, ProjectionGenericFunc.handle,
      ProjectionStringFunc.handle_regexMatch, getArg, ExprList.get?,
      ProjectionStringField.handle, ProjectionStringField.handle_Str,
      kwCf, kwArr, hRef, hP, optFalsy]
  · simp [compile_projection, ProjectionParser.handle, ProjectionMap.handle,
      FieldName.handle, ProjectionGenericField.handle, ProjectionGenericFunc.handle,
      ProjectionStringFunc.handle_regexMatch, getArg, ExprList.get?,
      ProjectionStringField.handle, ProjectionStringField.handle_Str,
      kwCf, kwArr, hRef, hP, optFalsy]

/-- Witness for C7 at `F == regexMatch("^a")` and `F == regexMatch("^a", "i")`. -/
theorem c7_regexmatch_witness :
    compile_projection
        (.compare (.name "F" 0)
          (.cons (.call "regexMatch" (.cons (.str "^a" 16) .nil) 5) .nil) 0) [] []
      = .ok (.obj [("$and", .arr
          [ .obj [("$eq", .arr [.str "string", .obj [("$type", .str ("$" ++ "F"))]])],
            .obj [("$regexMatch", .obj
              [("input", .str ("$" ++ "F")), ("regex", .str "^a")])] ])])
    ∧ compile_projection
        (.compare (.name "F" 0)
          (.cons (.call "regexMatch"
            (.cons (.str "^a" 16) (.cons (.str "i" 22) .nil)) 5) .nil) 0) [] []
      = .ok (.obj [("$and", .arr
          [ .obj [("$eq", .arr [.str "string", .obj [("$type", .str ("$" ++ "F"))]])],
            .obj [("$regexMatch", .obj
              [("input", .str ("$" ++ "F")), ("regex", .str "^a"),
               ("options", .str "i")])] ])]) :=
  ⟨(c7_regexmatch "F" "^a" "i" [] [] 0 16 5 0 22 (by simp)).1,
   (c7_regexmatch "F" "^a" "i" [] [] 0 16 5 0 22 (by simp)).2⟩

/-- An `ast.Dict` node whose keys and values are all string literals — the
input encoding used to state claim C8. -/
def strDictPairs (off : Nat) : List (String × String) → ExprPairs
  | [] => .nil
  | (k, v) :: rest => .cons (.str k off) (.str v off) (strDictPairs off rest)

/-- The dict comprehension on all-string pairs: every key and value is
translated under the *empty* context, so each value comes back as the raw
string.  (Helper for C8.) -/
theorem handle_Dict_pairs_str (off : Nat) (l : List (String × String)) :
    ProjectionDictField.handle_Dict_pairs (strDictPairs off l)
      = .ok (l.map fun kv => .obj [(kv.1, .str kv.2)]) := by
  induction l with
  | nil => simp [strDictPairs, ProjectionDictField.handle_Dict_pairs]
  | cons kv rest ih =>
    simp [strDictPairs, ProjectionDictField.handle_Dict_pairs,
      ProjectionStringField.handle, ProjectionStringField.handle_Str,
      ProjectionGenericField.handle, optFalsy, kwCf, ih]

/-- **C8** counterexample: the compared field path is *not* reused for the
nested translations — the `**kwargs` context is dropped entirely.  With
compared field `a.b ∈ array_fields`, `a.b == {'k': 'v'}` translates the
value `'v'` under an empty context, yielding the raw string fragment
`{'k': 'v'}` — not the `{'k': {'$eq': [<ref>, 'v']}}` fragment that reusing
the compared field path (rule §4.2) would produce. -/
theorem c8_counterexample :
    compile_projection
        (.compare (.attribute (.name "a" 0) "b" 0)
          (.cons (.dict (.cons (.str "k" 10) (.str "v" 15) .nil) 8) .nil) 0)
        ["a.b"] []
      = .ok (.obj [("$and", .arr [.obj [("k", .str "v")]])])
    ∧ compile_projection
        (.compare (.attribute (.name "a" 0) "b" 0)
          (.cons (.dict (.cons (.str "k" 10) (.str "v" 15) .nil) 8) .nil) 0)
        ["a.b"] []
      ≠ .ok (.obj [("$and", .arr [.obj [("k",
          .obj [("$eq", .arr [.str (specRefForm "a.b" ["a.b"]), .str "v"])])]])]) := by
  constructor
  · simp +decide [compile_projection, ProjectionParser.handle, ProjectionMap.handle,
      FieldName.handle, ProjectionGenericField.handle,
      ProjectionDictField.handle_Dict_pairs, ProjectionStringField.handle,
      ProjectionStringField.handle_Str, optFalsy, kwCf]
  · simp +decide [compile_projection, ProjectionParser.handle, ProjectionMap.handle,
      FieldName.handle, ProjectionGenericField.handle,
      ProjectionDictField.handle_Dict_pairs, ProjectionStringField.handle,
      ProjectionStringField.handle_Str, optFalsy, kwCf, specRefForm, lastSeg]

/-- **C8** amended (proved): a dict-literal right-hand side becomes an
implicit `$and` with one single-pair fragment per key/value pair; each key
is translated as a string literal and each value dispatched recursively to
the generic field handler, but both under an *empty* context — the compared
field path is dropped for the nested translations (neither reused nor
extended with the key name), so string values come back as raw strings. -/
theorem c8_dict_context_dropped
    (P : String) (arrF cplxF : List String) (l : List (String × String))
    (o1 o2 o3 o4 : Nat) (hA : P ∈ arrF) (hC : P ∉ cplxF) :
    compile_projection
        (.compare (.name P o1) (.cons (.dict (strDictPairs o2 l) o3) .nil) o4)
        arrF cplxF
      = .ok (.obj [("$and", .arr (l.map fun kv => .obj [(kv.1, .str kv.2)]))]) := by
  have hNe : ¬(P ∈ cplxF ∧ P ∈ arrF) := fun hc => hC hc.1
  simp [compile_projection, ProjectionParser.handle, ProjectionMap.handle,
    FieldName.handle, ProjectionGenericField.handle, handle_Dict_pairs_str, hNe]

/-- Witness for C8's amended theorem at `a == {'k': 'v', 'k2': 'v2'}` with
`a ∈ array_fields`. -/
theorem c8_dict_context_dropped_witness :
    compile_projection
        (.compare (.name "a" 0)
          (.cons (.dict (strDictPairs 9 [("k", "v"), ("k2", "v2")]) 8) .nil) 0)
        ["a"] []
      = .ok (.obj [("$and", .arr
          ([("k", "v"), ("k2", "v2")].map fun kv => .obj [(kv.1, .str kv.2)]))]) :=
  c8_dict_context_dropped "a" ["a"] [] [("k", "v"), ("k2", "v2")] 0 9 8 0
    (by simp) (by simp)

/-- **C9** (confirmed): schema-aware resolution of a field path absent from
the injected field-to-type mapping fails with the field-not-found
`ParseError` carrying the field name in its message, the node's column
offset, and as suggestions exactly the full declared field-path list; a
declared field path resolves to itself and its declared Field-Type handler. -/
theorem c9_schema_aware_resolution
    {α : Type} (m : List (String × α)) (node : Expr) (P : String)
    (hN : FieldName.handle node = .ok P) :
    (m.lookup P = none →
      SchemaAwareOperatorMap.resolve_field m node
        = .error (.parse ("Field not found: " ++ P ++ ".") (some node.off)
            (some (m.map Prod.fst))))
    ∧ (∀ t, m.lookup P = some t →
      SchemaAwareOperatorMap.resolve_field m node = .ok P
      ∧ SchemaAwareOperatorMap.resolve_type m P = some t) := by
  constructor
  · intro h
    simp [SchemaAwareOperatorMap.resolve_field, hN, h]
  · intro t h
    exact ⟨by simp [SchemaAwareOperatorMap.resolve_field, hN, h],
      by simp [SchemaAwareOperatorMap.resolve_type, h]⟩

/-- Witness for C9 over the declared schema `{a: "int", b: "str"}`: the
unknown field `c` fails with both declared paths as suggestions, the
declared field `a` resolves to its declared type tag. -/
theorem c9_schema_aware_resolution_witness :
    SchemaAwareOperatorMap.resolve_field [("a", "int"), ("b", "str")] (.name "c" 3)
      = .error (.parse ("Field not found: " ++ "c" ++ ".") (some (Expr.off (.name "c" 3)))
          (some ([("a", "int"), ("b", "str")].map Prod.fst)))
    ∧ (SchemaAwareOperatorMap.resolve_field [("a", "int"), ("b", "str")] (.name "a" 0)
        = .ok "a"
      ∧ SchemaAwareOperatorMap.resolve_type [("a", "int"), ("b", "str")] "a"
        = some "int") :=
  ⟨(c9_schema_aware_resolution [("a", "int"), ("b", "str")] (.name "c" 3) "c"
      (by simp [FieldName.handle])).1 (by simp [List.lookup]),
   (c9_schema_aware_resolution [("a", "int"), ("b", "str")] (.name "a" 0) "a"
      (by simp [FieldName.handle])).2 "int" (by simp [List.lookup])⟩

/-- **C10** (confirmed): comparing a field `P` against a special-value name
literal produces `{'$eq': ['$' + P, v]}` with the root-scoped reference even
when `P ∈ array_fields` (first conjunct, at the whole-comparison level with
`P` array but not complex, so no elevation applies); and the name-literal
handler renders `'$' + P` under *every* context, never the alias-scoped
`'$$' + last_segment(P)` form that string and number literals use
(second conjunct). -/
theorem c10_name_literal_root_scoped
    (P id : String) (v : Frag) (arrF cplxF : List String) (o1 o2 o3 : Nat)
    (hv : SPECIAL_VALUES.lookup id = some v) (hA : P ∈ arrF) (hC : P ∉ cplxF) :
    compile_projection
        (.compare (.name P o1) (.cons (.name id o2) .nil) o3) arrF cplxF
      = .ok (.obj [("$eq", .arr [.str ("$" ++ P), v])])
    ∧ ∀ (arrF2 cplxF2 : List String),
      ProjectionGenericField.handle (.name id o2) (some ⟨some P, arrF2, cplxF2⟩)
        = .ok (.obj [("$eq", .arr [.str ("$" ++ P), v])]) := by
  have hNe : ¬(P ∈ cplxF ∧ P ∈ arrF) := fun hc => hC hc.1
  constructor
  · simp [compile_projection, ProjectionParser.handle, ProjectionMap.handle,
      FieldName.handle, ProjectionGenericField.handle, ProjectionField.handle_Name,
      kwCf, pyOptStr, hv, hNe]
  · intro arrF2 cplxF2
    simp [ProjectionGenericField.handle, ProjectionField.handle_Name,
      kwCf, pyOptStr, hv]

/-- Witness for C10 at `a.b == True` with `a.b ∈ array_fields`. -/
theorem c10_name_literal_root_scoped_witness :
    compile_projection
        (.compare (.name "a.b" 0) (.cons (.name "True" 7) .nil) 0) ["a.b"] []
      = .ok (.obj [("$eq", .arr [.str ("$" ++ "a.b"), .bool true])])
    ∧ ProjectionGenericField.handle (.name "True" 7) (some ⟨some "a.b", ["a.b"], ["a.b"]⟩)
      = .ok (.obj [("$eq", .arr [.str ("$" ++ "a.b"), .bool true])]) :=
  ⟨(c10_name_literal_root_scoped "a.b" "True" (.bool true) ["a.b"] [] 0 7 0
      (by simp [SPECIAL_VALUES, List.lookup]) (by simp) (by simp)).1,
   (c10_name_literal_root_scoped "a.b" "True" (.bool true) ["a.b"] [] 0 7 0
      (by simp [SPECIAL_VALUES, List.lookup]) (by simp) (by simp)).2 ["a.b"] ["a.b"]⟩

end PqlProj
